import Mathlib

/-!
# aws-ec2-connector: instance picker, instance directory, key parsing, dispatch

A shallow embedding of `aws-ec2-connector.go`.

* Go `int` values (the picker cursor) are `Int`; every value the code computes stays
  within `[-1, len(instances)]`, so no 64-bit wrap-around can occur.
* A Go `error` is an `Option String` (the message, `none` for `nil`) or the error side
  of an `Except String _`.
* Pointers the code dereferences without a nil check (`*inst.InstanceId`, `*tag.Key`,
  `*tag.Value`, `*info.InstanceId`) are plain `String` fields (on a nil one the program
  panics and returns nothing); the pointer the code does check
  (`inst.PrivateIpAddress`) is an `Option String`.
* Functions of the Go standard library whose tables are not part of the program
  (`strings.ToLower`, `pem.Decode`, the `x509` parsers) are parameters of the functions
  that call them.
* `selected *InstanceInfo` always holds `&m.instances[i]`; it is modelled by the index
  `i` of the element it points at (`none` for `nil`).
* The outside world (AWS API answers, the terminal, sub-processes, the TCP port) is an
  explicit `World` of oracles, and every externally visible action is an `Event`
  appended to a trace.
-/

namespace Ec2Connector

/-! ## Data model -/

/-- Go `type InstanceInfo struct`. -/
structure InstanceInfo where
  ID : String
  Name : String
  PrivateIP : String
  Platform : String
deriving DecidableEq, Repr

/-- A Bubble Tea message: a `tea.KeyMsg` identified by its `String()` rendering, or a
message of any other dynamic type. -/
inductive Msg where
  | key (s : String)
  | other
deriving DecidableEq, Repr

/-- A Bubble Tea command; the only one the program ever returns is `tea.Quit`
(`none` stands for the `nil` command). -/
inductive Cmd where
  | quit
deriving DecidableEq, Repr

/-- Go `type instanceSelectorModel struct`. -/
structure instanceSelectorModel where
  instances : List InstanceInfo
  cursor : Int
  selected : Option Nat
deriving DecidableEq, Repr

/-! ## Instance picker -/

/-- Go `func (m instanceSelectorModel) Update(msg tea.Msg) (tea.Model, tea.Cmd)`. -/
def instanceSelectorModel.Update (m : instanceSelectorModel) (msg : Msg) :
    instanceSelectorModel × Option Cmd :=
  match msg with
  | Msg.key s =>
    if s = "ctrl+c" ∨ s = "q" then
      (m, some Cmd.quit)
    else if s = "up" then
      (if m.cursor > 0 then { m with cursor := m.cursor - 1 } else m, none)
    else if s = "down" then
      (if m.cursor < (m.instances.length : Int) - 1 then { m with cursor := m.cursor + 1 } else m,
        none)
    else if s = "enter" then
      if m.cursor ≥ 0 ∧ m.cursor < (m.instances.length : Int) then
        ({ m with selected := some m.cursor.toNat }, some Cmd.quit)
      else
        (m, none)
    else
      (m, none)
  | Msg.other => (m, none)

/-- The model `selectInstance` hands to Bubble Tea: `instanceSelectorModel{instances: instances}`
(cursor and selected take their zero values). -/
def initialModel (instances : List InstanceInfo) : instanceSelectorModel :=
  { instances := instances, cursor := 0, selected := none }

/-- Feed a sequence of messages through `Update`, ignoring the returned commands. -/
def updates (m : instanceSelectorModel) (msgs : List Msg) : instanceSelectorModel :=
  msgs.foldl (fun acc msg => (acc.Update msg).1) m

/-- The element a `selected` pointer refers to. -/
def deref (instances : List InstanceInfo) (p : Nat) : Option InstanceInfo :=
  instances.get? p

/-- The first line `View` writes. -/
def viewHeader : String :=
  "📋 Select an EC2 Instance (Use ↑/↓ to navigate, Enter to select, q to quit):\n\n"

/-- The `%-20s` verb of `fmt.Sprintf`: left-justified, padded with blanks to 20 characters. -/
def padRight (width : Nat) (s : String) : String :=
  s ++ String.mk (List.replicate (width - s.length) ' ')

/-- One iteration of the loop in `View`: the row `fmt.Sprintf` formats for entry `i`. -/
def viewLine (m : instanceSelectorModel) (i : Nat) (inst : InstanceInfo) : String :=
  let cursor := if m.cursor = (i : Int) then ">" else " "
  let platform := if inst.Platform ≠ "" then inst.Platform else "Linux"
  cursor ++ " [" ++ toString (i + 1) ++ "] " ++ padRight 20 inst.Name ++ " | " ++ inst.ID
    ++ " | " ++ inst.PrivateIP ++ " | " ++ platform ++ "\n"

/-- The loop `for i, inst := range m.instances` of `View`, from index `i` on, appending to `s`. -/
def viewLoop (m : instanceSelectorModel) : Nat → List InstanceInfo → String → String
  | _, [], s => s
  | i, inst :: rest, s => viewLoop m (i + 1) rest (s ++ viewLine m i inst)

/-- Go `func (m instanceSelectorModel) View() string`. -/
def instanceSelectorModel.View (m : instanceSelectorModel) : String :=
  viewLoop m 0 m.instances viewHeader

/-- The event loop of `p.Run()`: every incoming message goes through `Update`; the program
ends with the model `Update` returned together with `tea.Quit` (messages that arrive after
the quit command are taken as not delivered). `none`: the messages are used up and the
program is still waiting for input. -/
def runProgram : instanceSelectorModel → List Msg → Option instanceSelectorModel
  | _, [] => none
  | m, msg :: rest =>
    match m.Update msg with
    | (m1, some Cmd.quit) => some m1
    | (m1, none) => runProgram m1 rest

/-- What `p.Run()` meets: a terminal that cannot be driven (`Run` returns an error), or the
messages the operator produces. -/
inductive Terminal where
  | broken (err : String)
  | input (msgs : List Msg)
deriving DecidableEq, Repr

/-- Go `func selectInstance(instances []InstanceInfo) (*InstanceInfo, error)`.
`none`: `p.Run()` has not returned. -/
def selectInstance (instances : List InstanceInfo) (t : Terminal) : Option (Except String Nat) :=
  match t with
  | Terminal.broken err => some (Except.error ("TUI failed: " ++ err))
  | Terminal.input msgs =>
    match runProgram (initialModel instances) msgs with
    | none => none
    | some m =>
      match m.selected with
      | none => some (Except.error "no instance selected")
      | some p => some (Except.ok p)

/-! ## Instance directory -/

/-- Go `strings.Contains(s, substr)`: `substr` starts at some position of `s`. The search
is over characters; for the ASCII markers the program looks for, this is Go's byte-wise
search on UTF-8 text. -/
def stringsContains (s substr : String) : Bool :=
  s.data.tails.any (fun t => substr.data.isPrefixOf t)

/-- The fields of `ec2types.Tag` the program reads. -/
structure Tag where
  Key : String
  Value : String
deriving DecidableEq, Repr

/-- The fields of `ec2types.Instance` the program reads. -/
structure Instance where
  InstanceId : String
  Tags : List Tag
  PrivateIpAddress : Option String
  Platform : String
deriving DecidableEq, Repr

/-- The field of `ec2types.Reservation` the program reads. -/
structure Reservation where
  Instances : List Instance
deriving DecidableEq, Repr

/-- The Go map `ssmIDs map[string]bool`, in which every stored value is `true`: the list of
its keys, without repetition. -/
abbrev IdSet := List String

/-- The assignment `ssmIDs[id] = true`. -/
def IdSet.set (ids : IdSet) (id : String) : IdSet :=
  if id ∈ ids then ids else id :: ids

/-- The lookup `_, ok := ssmIDs[id]`. -/
def IdSet.has (ids : IdSet) (id : String) : Bool :=
  decide (id ∈ ids)

/-- The paginator loop of `listRunningInstances` (lines 159-169). Each element of `pages`
is the answer of one `NextPage` call: an error, or the instance IDs of the page's
`InstanceInformationList`. -/
def collectSsmIDs : List (Except String (List String)) → IdSet → Except String IdSet
  | [], ids => Except.ok ids
  | Except.error e :: _, _ => Except.error ("failed to get SSM instance info: " ++ e)
  | Except.ok page :: rest, ids =>
    collectSsmIDs rest (page.foldl (fun acc id => IdSet.set acc id) ids)

/-- The tag loop (lines 187-193): the value of the first tag whose key is `Name`. -/
def displayName : List Tag → String
  | [] => "(no name)"
  | tag :: rest => if tag.Key = "Name" then tag.Value else displayName rest

/-- The inner loop `for _, inst := range res.Instances` (lines 186-216), appending to
`instances`. `toLower` stands for Go's `strings.ToLower`, a function of the Go standard
library (Unicode case mapping) and not of this program. -/
def instancesLoop (toLower : String → String) (ssmIDs : IdSet) :
    List Instance → List InstanceInfo → List InstanceInfo
  | [], instances => instances
  | inst :: rest, instances =>
    let name := displayName inst.Tags
    if stringsContains name "Storage-Gateway" then
      instancesLoop toLower ssmIDs rest instances
    else if !(ssmIDs.has inst.InstanceId) then
      instancesLoop toLower ssmIDs rest instances
    else
      let ip := match inst.PrivateIpAddress with
        | some a => a
        | none => "-"
      let platform := if inst.Platform ≠ "" then toLower inst.Platform else ""
      instancesLoop toLower ssmIDs rest
        (instances ++ [{ ID := inst.InstanceId, Name := name, PrivateIP := ip, Platform := platform }])

/-- The outer loop `for _, res := range out.Reservations` (lines 185-217). -/
def reservationsLoop (toLower : String → String) (ssmIDs : IdSet) :
    List Reservation → List InstanceInfo → List InstanceInfo
  | [], instances => instances
  | res :: rest, instances =>
    reservationsLoop toLower ssmIDs rest (instancesLoop toLower ssmIDs res.Instances instances)

/-- Go `func listRunningInstances(cfg aws.Config) ([]InstanceInfo, error)`. The two
services are given by their answers: `ssmPages` the successive pages of
`DescribeInstanceInformation`, `describe` the answer of `DescribeInstances` with the
`running` state filter; `toLower` stands for Go's `strings.ToLower`. -/
def listRunningInstances (toLower : String → String)
    (ssmPages : List (Except String (List String)))
    (describe : Except String (List Reservation)) : Except String (List InstanceInfo) :=
  match collectSsmIDs ssmPages [] with
  | Except.error e => Except.error e
  | Except.ok ssmIDs =>
    match describe with
    | Except.error e => Except.error e
    | Except.ok reservations => Except.ok (reservationsLoop toLower ssmIDs reservations [])

/-! ### The directory as the specification words it

These definitions are written from the words of the specification and use none of the
definitions above: the display name is found with `List.find?`, the exclusion marker is
the infix relation on the characters, membership in the snapshot is list membership. -/

/-- The display name of an instance: the value of its first tag with key `Name`, or
`(no name)` when it has no such tag. -/
def specDisplayName (inst : Instance) : String :=
  match inst.Tags.find? (fun t => decide (t.Key = "Name")) with
  | some t => t.Value
  | none => "(no name)"

/-- Whether an instance is a connectable target: its ID is in the agent-registry snapshot
and its display name does not contain the reserved marker `Storage-Gateway`. -/
def specEligible (snapshot : List String) (inst : Instance) : Bool :=
  decide (inst.InstanceId ∈ snapshot)
    && !decide ("Storage-Gateway".data <:+: (specDisplayName inst).data)

/-- The target of an instance: identifier, display name, private address or the sentinel
`-` when it is missing, and the platform tag in lowercase (the empty tag stays empty). -/
def specTarget (toLower : String → String) (inst : Instance) : InstanceInfo :=
  { ID := inst.InstanceId
    Name := specDisplayName inst
    PrivateIP := inst.PrivateIpAddress.getD "-"
    Platform := if inst.Platform = "" then "" else toLower inst.Platform }

/-- The directory as the specification describes it: the instances of the reservations in
input order (reservation order, then instance order), filtered to the connectable ones,
each mapped to its target. -/
def listTargetsSpec (toLower : String → String) (snapshot : List String)
    (reservations : List Reservation) : List InstanceInfo :=
  ((reservations.map (fun r => r.Instances)).flatten.filter (specEligible snapshot)).map
    (specTarget toLower)

/-- Every instance ID listed on a successfully fetched registry page. -/
def registryIDs (ssmPages : List (Except String (List String))) : List String :=
  (ssmPages.map (fun p => match p with
    | Except.ok page => page
    | Except.error _ => [])).flatten

/-! ## Key parsing -/

/-- The field of `pem.Block` the program reads. -/
structure Block where
  Bytes : List Nat
deriving DecidableEq, Repr

/-- The dynamic type of the key `x509.ParsePKCS8PrivateKey` returns: an `*rsa.PrivateKey`
(`R`), or a key of another algorithm family (`O`). -/
inductive AnyKey (R O : Type) where
  | rsa (k : R)
  | nonRsa (k : O)
deriving DecidableEq, Repr

/-- Go `func sshParsePrivateKey(pemBytes []byte) (*rsa.PrivateKey, error)`, with the three
library functions it calls as parameters: `pemDecode` for `pem.Decode` (its first result),
`parsePKCS1` for `x509.ParsePKCS1PrivateKey`, `parsePKCS8` for `x509.ParsePKCS8PrivateKey`. -/
def sshParsePrivateKey {R O : Type} (pemDecode : List Nat → Option Block)
    (parsePKCS1 : List Nat → Except String R)
    (parsePKCS8 : List Nat → Except String (AnyKey R O))
    (pemBytes : List Nat) : Except String R :=
  match pemDecode pemBytes with
  | none => Except.error "failed to parse PEM block containing the key"
  | some block =>
    match parsePKCS1 block.Bytes with
    | Except.ok priv => Except.ok priv
    | Except.error _ =>
      match parsePKCS8 block.Bytes with
      | Except.ok (AnyKey.rsa rsaKey) => Except.ok rsaKey
      | Except.ok (AnyKey.nonRsa _) => Except.error "failed to parse private key"
      | Except.error _ => Except.error "failed to parse private key"

/-! ## Session dispatch -/

/-- An action of the program that is visible from outside. -/
inductive Event where
  /-- Text written to standard output. -/
  | stdout (s : String)
  /-- One line read from standard input (`readLine`). -/
  | readStdin
  /-- The EC2 `GetPasswordData` call. -/
  | getPasswordData (instanceID : String)
  /-- The `os.ReadFile` call. -/
  | readFile (path : String)
  /-- The `clipboard.Write` call. -/
  | clipboardWrite (s : String)
  /-- The `net.DialTimeout` probe of `isPortInUse`. -/
  | dialPort (port : String)
  /-- A `time.Sleep` of so many seconds. -/
  | sleep (seconds : Nat)
  /-- A child process run to completion with the given argument vector. -/
  | exec (argv : List String)
  /-- The message of a `log.Fatalf` (which then ends the process with status 1). -/
  | logFatal (msg : String)
deriving DecidableEq, Repr

/-- What a child process started by `cmd.Run()` does. -/
inductive ProcResult where
  /-- It ran, wrote `stderrText` on its standard error and ended with status `code`. -/
  | exited (code : Nat) (stderrText : String)
  /-- It ran, wrote `stderrText` on its standard error and was ended by a signal. -/
  | signaled (signal : String) (stderrText : String)
  /-- It could not be started. -/
  | notStarted (err : String)
deriving DecidableEq, Repr

/-- A non-nil error returned by `cmd.Run()`. -/
inductive RunError where
  /-- An `*exec.ExitError`, with the rendering of its process state and its `Stderr`
  field. -/
  | exitError (state : String) (Stderr : String)
  /-- An error of any other dynamic type. -/
  | other (msg : String)
deriving DecidableEq, Repr

/-- The `Error()` method: an `*exec.ExitError` prints its process state. -/
def RunError.Error : RunError → String
  | RunError.exitError state _ => state
  | RunError.other msg => msg

/-- Go `cmd.Run()` from `os/exec`, for a command whose `Stderr` is `os.Stderr` (both
session functions set `cmd.Stderr = os.Stderr`): what the child writes on its standard
error goes to the terminal. The `Stderr` field of the returned `*exec.ExitError` stays
empty: `os/exec` documents that field as filled by `Cmd.Output`, and only when the
command's standard error is not otherwise collected. -/
def cmdRun (r : ProcResult) : Option RunError :=
  match r with
  | ProcResult.exited 0 _ => none
  | ProcResult.exited (code + 1) _ =>
    some (RunError.exitError ("exit status " ++ toString (code + 1)) "")
  | ProcResult.signaled signal _ => some (RunError.exitError ("signal: " ++ signal) "")
  | ProcResult.notStarted e => some (RunError.other e)

/-- The oracles of the outside world. -/
structure World (R O : Type) where
  /-- The line the operator types at the key-path prompt. -/
  stdinLine : String
  /-- The answer of `GetPasswordData`: an error, or the `PasswordData` pointer. -/
  passwordData : String → Except String (Option String)
  /-- The answer of `os.ReadFile`. -/
  readFile : String → Except String (List Nat)
  pemDecode : List Nat → Option Block
  parsePKCS1 : List Nat → Except String R
  parsePKCS8 : List Nat → Except String (AnyKey R O)
  /-- The answer of `base64.StdEncoding.DecodeString`. -/
  base64Decode : String → Except String (List Nat)
  /-- The answer of `rsa.DecryptPKCS1v15`, as the string of the plaintext bytes. -/
  rsaDecrypt : R → List Nat → Except String String
  /-- The error of `clipboard.Init`, if any. -/
  clipboardInit : Option String
  /-- The answer of the `n`-th `net.DialTimeout` probe: whether the connection succeeds. -/
  portInUse : Nat → Bool
  /-- The outcome of the `n`-th `lsof` run: an error, or the fields of its output. -/
  lsofOutput : Nat → Except String (List String)
  /-- The error of `kill -9 pid`, if any. -/
  killPid : String → Option String
  /-- What the child process started with an argument vector does. -/
  child : List String → ProcResult

/-- Go `func boldPrint(s string)`. -/
def boldPrint (s : String) : List Event :=
  [Event.stdout ("\x1b[1m" ++ s ++ "\x1b[0m\n")]

/-- Go `func yellowBoldPrint(s string)`. -/
def yellowBoldPrint (s : String) : List Event :=
  [Event.stdout ("\x1b[1;33m" ++ s ++ "\x1b[0m\n")]

/-- Go `func copyToClipboard(s string) error`. -/
def copyToClipboard {R O : Type} (w : World R O) (s : String) : List Event × Option String :=
  match w.clipboardInit with
  | some err => ([], some err)
  | none => ([Event.clipboardWrite s], none)

/-- Go `func decryptPassword(enc string, key *rsa.PrivateKey) (string, error)`. -/
def decryptPassword {R O : Type} (w : World R O) (enc : String) (key : R) : Except String String :=
  match w.base64Decode enc with
  | Except.error e => Except.error ("base64 decode failed: " ++ e)
  | Except.ok ciphertext =>
    match w.rsaDecrypt key ciphertext with
    | Except.error e => Except.error ("rsa decrypt failed: " ++ e)
    | Except.ok plaintext => Except.ok plaintext

/-- Go `func getWindowsPassword(cfg aws.Config, instanceID, keyPath string) (string, error)`. -/
def getWindowsPassword {R O : Type} (w : World R O) (instanceID keyPath : String) :
    List Event × Except String String :=
  match w.passwordData instanceID with
  | Except.error e => ([Event.getPasswordData instanceID], Except.error e)
  | Except.ok none =>
    ([Event.getPasswordData instanceID], Except.error "Password data not available yet")
  | Except.ok (some data) =>
    if data = "" then
      ([Event.getPasswordData instanceID], Except.error "Password data not available yet")
    else
      match w.readFile keyPath with
      | Except.error e =>
        ([Event.getPasswordData instanceID, Event.readFile keyPath],
          Except.error ("Failed to read key file: " ++ e))
      | Except.ok pemBytes =>
        match sshParsePrivateKey w.pemDecode w.parsePKCS1 w.parsePKCS8 pemBytes with
        | Except.error e =>
          ([Event.getPasswordData instanceID, Event.readFile keyPath], Except.error e)
        | Except.ok privKey =>
          match decryptPassword w data privKey with
          | Except.error e =>
            ([Event.getPasswordData instanceID, Event.readFile keyPath], Except.error e)
          | Except.ok password =>
            ([Event.getPasswordData instanceID, Event.readFile keyPath], Except.ok password)

/-- The `if err != nil` block that follows `cmd.Run()` in both `startShellSession`
(lines 387-399) and `startPortForward` (lines 258-270): the two blocks are the same text. -/
def sessionResult (instanceID : String) (err : Option RunError) : List Event × Option String :=
  match err with
  | none => ([], none)
  | some (RunError.exitError state stderr) =>
    if stringsContains stderr "TargetNotConnected" then
      ([Event.stdout "❌ SSM session failed: The instance is not connected to SSM.\n",
        Event.stdout
          "👉 Please check if the SSM agent is running and properly configured on this instance.\n"],
        some ("SSM agent not connected on instance " ++ instanceID))
    else
      ([], some (RunError.exitError state stderr).Error)
  | some (RunError.other msg) => ([], some (RunError.other msg).Error)

/-- The argument vector of the shell session. -/
def shellArgv (instanceID region : String) : List String :=
  ["aws", "ssm", "start-session", "--target", instanceID, "--region", region]

/-- The argument vector of the port-forwarding session. -/
def portForwardArgv (instanceID region port : String) : List String :=
  ["aws", "ssm", "start-session", "--target", instanceID,
    "--document-name", "AWS-StartPortForwardingSession",
    "--parameters", "portNumber=3389,localPortNumber=" ++ port,
    "--region", region]

/-- Go `func startShellSession(instanceID, region string) error`. -/
def startShellSession {R O : Type} (w : World R O) (instanceID region : String) :
    List Event × Option String :=
  let argv := shellArgv instanceID region
  let r := sessionResult instanceID (cmdRun (w.child argv))
  (Event.exec argv :: r.1, r.2)

/-- The loop over the process IDs in `killProcessOnPort`. -/
def killAll {R O : Type} (w : World R O) : List String → List Event × Option String
  | [] => ([], none)
  | pid :: rest =>
    match w.killPid pid with
    | some e => ([Event.exec ["kill", "-9", pid]], some ("failed to kill pid " ++ pid ++ ": " ++ e))
    | none =>
      let r := killAll w rest
      (Event.exec ["kill", "-9", pid] :: r.1, r.2)

/-- Go `func killProcessOnPort(port string) error`; `n` counts the earlier calls. -/
def killProcessOnPort {R O : Type} (w : World R O) (n : Nat) (port : String) :
    List Event × Option String :=
  match w.lsofOutput n with
  | Except.error e => ([Event.exec ["lsof", "-t", "-i", ":" ++ port]], some ("lsof failed: " ++ e))
  | Except.ok pids =>
    let r := killAll w pids
    (Event.exec ["lsof", "-t", "-i", ":" ++ port] :: r.1, r.2)

/-- Go `func isPortInUse(port string) bool`; `n` counts the earlier probes. -/
def isPortInUse {R O : Type} (w : World R O) (n : Nat) (port : String) : List Event × Bool :=
  ([Event.dialPort port], w.portInUse n)

/-- Go `func readLine() string`. -/
def readLine {R O : Type} (w : World R O) : List Event × String :=
  ([Event.readStdin], w.stdinLine)

/-- How the port loop of `startPortForward` ends. -/
inductive PortLoop where
  /-- The probe found the port free (`break`). -/
  | clear
  /-- `killProcessOnPort` failed (`return`). -/
  | failed (err : String)
  /-- The loop is still running when the fuel is used up. -/
  | running
deriving DecidableEq, Repr

/-- The loop `for \x7b if isPortInUse(port) ... \x7d` of `startPortForward` (lines 223-235);
`n` counts the iterations made so far, `fuel` bounds the ones still to make. -/
def portLoop {R O : Type} (w : World R O) (port : String) : Nat → Nat → List Event × PortLoop
  | 0, _ => ([], PortLoop.running)
  | fuel + 1, n =>
    let probe := isPortInUse w n port
    if probe.2 then
      let k := killProcessOnPort w n port
      let head := probe.1
        ++ Event.stdout ("❗ Port " ++ port ++ " is already in use. Killing process using it...\n")
        :: k.1
      match k.2 with
      | some err =>
        (head, PortLoop.failed ("failed to kill process on port " ++ port ++ ": " ++ err))
      | none =>
        let r := portLoop w port fuel (n + 1)
        (head ++ Event.stdout ("✅ Killed process using port " ++ port ++ ". Retrying...\n")
          :: Event.sleep 1 :: r.1, r.2)
    else
      (probe.1, PortLoop.clear)

/-- Go `func startPortForward(instanceID, region string) error`. The second component is
`none` while the port loop has not ended within `fuel` iterations, and the returned
error otherwise. -/
def startPortForward {R O : Type} (w : World R O) (fuel : Nat) (instanceID region : String) :
    List Event × Option (Option String) :=
  let port := "9000"
  let l := portLoop w port fuel 0
  match l.2 with
  | PortLoop.running => (l.1, none)
  | PortLoop.failed err => (l.1, some (some err))
  | PortLoop.clear =>
    let argv := portForwardArgv instanceID region port
    let r := sessionResult instanceID (cmdRun (w.child argv))
    (l.1 ++ boldPrint ("📡 Starting port forwarding to local port " ++ port ++ "...")
      ++ [Event.stdout "⏳ Waiting for port to be ready...\n", Event.sleep 3,
          Event.stdout ("➡️  Port forwarding started. Connect your RDP client to localhost:"
            ++ port ++ "\n"),
          Event.stdout "Press Ctrl+C to stop port forwarding.\n",
          Event.exec argv]
      ++ r.1, some r.2)

/-- The end of `main` (lines 144-151): what happens with the error of the session
function. The second component is the exit status of the process. -/
def finish (err : Option String) : List Event × Nat :=
  match err with
  | none => ([], 0)
  | some e =>
    if !(stringsContains e "SSM agent not connected") then
      ([Event.logFatal ("❌ SSM session failed: " ++ e)], 1)
    else
      ([], 1)

/-- The prompt of the Windows branch of `main` (line 127). -/
def keyPrompt : String :=
  "🔑 Enter full path to your Windows EC2 PEM private key: "

/-- The dispatch step of `main` (lines 124-151), for the selected instance. The second
component is the exit status of the process, `none` while the port loop of
`startPortForward` has not ended within `fuel` iterations.

In the Windows branch `password, err := getWindowsPassword(...)` (line 130) declares a
new `err` local to the `if` block, and line 138 assigns the error of `startPortForward`
to that local variable. The `err` tested at line 144 is the one of the function scope,
which is `nil` here (it was last set by the successful `selectInstance`): after the
Windows branch `main` ends with status 0 whatever `startPortForward` returned. -/
def dispatch {R O : Type} (w : World R O) (fuel : Nat) (selected : InstanceInfo) (region : String) :
    List Event × Option Nat :=
  let banner := boldPrint ("✅ Selected instance: " ++ selected.Name ++ " (" ++ selected.ID ++ ")")
  if selected.Platform = "windows" then
    let line := readLine w
    let ask := Event.stdout keyPrompt :: line.1
    let keyPath := line.2
    let g := getWindowsPassword w selected.ID keyPath
    match g.2 with
    | Except.error e =>
      (banner ++ ask ++ g.1 ++ [Event.logFatal ("❌ Failed to get Windows password: " ++ e)], some 1)
    | Except.ok password =>
      let c := copyToClipboard w password
      let shown := yellowBoldPrint
        ("🔐 Windows Administrator password (copied to clipboard): " ++ password)
      let f := startPortForward w fuel selected.ID region
      match f.2 with
      | none => (banner ++ ask ++ g.1 ++ c.1 ++ shown ++ f.1, none)
      | some _ =>
        let fin := finish none
        (banner ++ ask ++ g.1 ++ c.1 ++ shown ++ f.1 ++ fin.1, some fin.2)
  else
    let s := startShellSession w selected.ID region
    let fin := finish s.2
    (banner ++ s.1 ++ fin.1, some fin.2)

/-! ## Sample data -/

/-- A Linux target. -/
def sampleLinux : InstanceInfo :=
  { ID := "i-0a1", Name := "web-1", PrivateIP := "10.0.0.5", Platform := "" }

/-- A Windows target. -/
def sampleWindows : InstanceInfo :=
  { ID := "i-0b2", Name := "rdp-1", PrivateIP := "10.0.0.6", Platform := "windows" }

/-- An instance registered with the agent registry. -/
def sampleInstance : Instance :=
  { InstanceId := "i-0a1", Tags := [{ Key := "env", Value := "prod" }, { Key := "Name", Value := "web-1" }],
    PrivateIpAddress := some "10.0.0.5", Platform := "" }

/-- A Windows instance without a private address and without a `Name` tag. -/
def sampleBare : Instance :=
  { InstanceId := "i-0b2", Tags := [], PrivateIpAddress := none, Platform := "Windows" }

/-- An instance whose display name carries the exclusion marker. -/
def sampleGateway : Instance :=
  { InstanceId := "i-0c3", Tags := [{ Key := "Name", Value := "AWS-Storage-Gateway-1" }],
    PrivateIpAddress := some "10.0.0.7", Platform := "" }

/-- The target of `sampleBare`. -/
def sampleBareTarget : InstanceInfo :=
  { ID := "i-0b2", Name := "(no name)", PrivateIP := "-", Platform := "windows" }

/-- A lowercasing function for the samples: the letters `A` to `Z` become `a` to `z`. -/
def sampleToLower (s : String) : String :=
  String.mk (s.data.map Char.toLower)

/-- Two registry pages. -/
def samplePages : List (Except String (List String)) :=
  [Except.ok ["i-0a1", "i-0c3"], Except.ok ["i-0b2", "i-0a1"]]

/-- A `DescribeInstances` answer in which the instance `i-0a1` is listed in two reservations. -/
def sampleRepeated : List Reservation :=
  [{ Instances := [sampleInstance] }, { Instances := [sampleGateway, sampleInstance] }]

/-- A `DescribeInstances` answer in which only the excluded gateway instance is listed
twice. -/
def sampleGatewayTwice : List Reservation :=
  [{ Instances := [sampleInstance, sampleGateway] }, { Instances := [sampleGateway, sampleBare] }]

/-- A `DescribeInstances` answer in which every instance is listed once. -/
def sampleReservations : List Reservation :=
  [{ Instances := [sampleInstance, sampleGateway] }, { Instances := [sampleBare] }]

/-- A toy PEM decoder: the first byte is the armour, the rest the block. -/
def samplePemDecode : List Nat → Option Block
  | [] => none
  | _ :: rest => some { Bytes := rest }

/-- A toy format-A parser: a block `1, k` holds the RSA key `k`. -/
def samplePKCS1 : List Nat → Except String Nat
  | [1, k] => Except.ok k
  | _ => Except.error "x509: failed to parse private key"

/-- A toy format-B parser: a block `8, 0, k` holds the RSA key `k`, a block `8, 1, k` a
key `k` of another family. -/
def samplePKCS8 : List Nat → Except String (AnyKey Nat Nat)
  | [8, 0, k] => Except.ok (AnyKey.rsa k)
  | [8, 1, k] => Except.ok (AnyKey.nonRsa k)
  | _ => Except.error "x509: failed to parse private key"

/-- What the session launcher writes on its standard error when the agent of the target
is not connected. -/
def sampleStderr : String :=
  "An error occurred (TargetNotConnected) when calling the StartSession operation: i-0a1 is not connected.\n"

/-- A world in which the password data of every instance is available, the key file holds
a format-A key, the local port is free, and every session the launcher is asked for fails
with status 255 after writing `sampleStderr` on its standard error. -/
def sampleWorld : World Nat Nat :=
  { stdinLine := "/home/op/key.pem"
    passwordData := fun _ => Except.ok (some "c2VjcmV0")
    readFile := fun _ => Except.ok [0, 1, 7]
    pemDecode := samplePemDecode
    parsePKCS1 := samplePKCS1
    parsePKCS8 := samplePKCS8
    base64Decode := fun _ => Except.ok [115, 101, 99, 114, 101, 116]
    rsaDecrypt := fun _ _ => Except.ok "hunter2"
    clipboardInit := none
    portInUse := fun _ => false
    lsofOutput := fun _ => Except.ok []
    killPid := fun _ => none
    child := fun _ => ProcResult.exited 255 sampleStderr }

/-! ## Picker: helper lemmas -/

theorem update_down (m : instanceSelectorModel) :
    m.Update (Msg.key "down") =
      (if m.cursor < (m.instances.length : Int) - 1 then { m with cursor := m.cursor + 1 } else m,
        none) := by
  simp [instanceSelectorModel.Update]

theorem update_up (m : instanceSelectorModel) :
    m.Update (Msg.key "up") =
      (if m.cursor > 0 then { m with cursor := m.cursor - 1 } else m, none) := by
  simp [instanceSelectorModel.Update]

theorem update_enter (m : instanceSelectorModel) :
    m.Update (Msg.key "enter") =
      if m.cursor ≥ 0 ∧ m.cursor < (m.instances.length : Int) then
        ({ m with selected := some m.cursor.toNat }, some Cmd.quit)
      else (m, none) := by
  simp [instanceSelectorModel.Update]

theorem update_instances (m : instanceSelectorModel) (msg : Msg) :
    (m.Update msg).1.instances = m.instances := by
  unfold instanceSelectorModel.Update
  cases msg with
  | other => rfl
  | key s => simp only; split_ifs <;> rfl

theorem updates_nil (m : instanceSelectorModel) : updates m [] = m := rfl

theorem updates_cons (m : instanceSelectorModel) (msg : Msg) (msgs : List Msg) :
    updates m (msg :: msgs) = updates (m.Update msg).1 msgs := rfl

theorem updates_append (m : instanceSelectorModel) (xs ys : List Msg) :
    updates m (xs ++ ys) = updates (updates m xs) ys := by
  simp [updates, List.foldl_append]

theorem updates_instances (m : instanceSelectorModel) (msgs : List Msg) :
    (updates m msgs).instances = m.instances := by
  induction msgs generalizing m with
  | nil => rfl
  | cons msg rest ih => rw [updates_cons, ih, update_instances]

theorem downs_cursor (instances : List InstanceInfo) (h : instances ≠ []) (N : Nat) :
    (updates (initialModel instances) (List.replicate N (Msg.key "down"))).cursor
      = min (N : Int) ((instances.length : Int) - 1) := by
  have hlen : 0 < instances.length := List.length_pos.mpr h
  induction N with
  | zero =>
    simp only [List.replicate_zero, updates_nil, initialModel]
    omega
  | succ n ih =>
    rw [List.replicate_succ', updates_append, updates_cons, updates_nil, update_down]
    rw [updates_instances]
    simp only [initialModel] at ih ⊢
    split_ifs with hc
    · simp only
      rw [ih] at hc ⊢
      push_cast
      omega
    · rw [ih] at hc ⊢
      push_cast
      omega

theorem ups_cursor_nonneg (m : instanceSelectorModel) (h : 0 ≤ m.cursor) (M : Nat) :
    0 ≤ (updates m (List.replicate M (Msg.key "up"))).cursor := by
  induction M generalizing m with
  | zero => simpa [updates_nil] using h
  | succ n ih =>
    rw [List.replicate_succ, updates_cons, update_up]
    apply ih
    split_ifs with hc
    · simp only
      omega
    · exact h

theorem update_of_not_final (m : instanceSelectorModel) (msg : Msg)
    (h1 : msg ≠ Msg.key "enter") (h2 : msg ≠ Msg.key "q") (h3 : msg ≠ Msg.key "ctrl+c") :
    (m.Update msg).2 = none ∧ (m.Update msg).1.selected = m.selected := by
  unfold instanceSelectorModel.Update
  cases msg with
  | other => exact ⟨rfl, rfl⟩
  | key s =>
    have e1 : s ≠ "enter" := fun e => h1 (by rw [e])
    have e2 : s ≠ "q" := fun e => h2 (by rw [e])
    have e3 : s ≠ "ctrl+c" := fun e => h3 (by rw [e])
    simp only [e1, e2, e3, or_self, if_false]
    split_ifs <;> exact ⟨rfl, rfl⟩

theorem update_quit (m : instanceSelectorModel) (k : String) (hk : k = "q" ∨ k = "ctrl+c") :
    m.Update (Msg.key k) = (m, some Cmd.quit) := by
  unfold instanceSelectorModel.Update
  have : k = "ctrl+c" ∨ k = "q" := hk.symm
  simp only [this, if_true]

theorem updates_selected_of_not_final (m : instanceSelectorModel) (pre : List Msg)
    (h : ∀ msg ∈ pre, msg ≠ Msg.key "enter" ∧ msg ≠ Msg.key "q" ∧ msg ≠ Msg.key "ctrl+c") :
    (updates m pre).selected = m.selected := by
  induction pre generalizing m with
  | nil => rfl
  | cons msg rest ih =>
    have hm := h msg (List.mem_cons_self _ _)
    rw [updates_cons, ih _ (fun x hx => h x (List.mem_cons_of_mem _ hx))]
    exact (update_of_not_final m msg hm.1 hm.2.1 hm.2.2).2

theorem runProgram_skip (m : instanceSelectorModel) (pre tail : List Msg)
    (h : ∀ msg ∈ pre, msg ≠ Msg.key "enter" ∧ msg ≠ Msg.key "q" ∧ msg ≠ Msg.key "ctrl+c") :
    runProgram m (pre ++ tail) = runProgram (updates m pre) tail := by
  induction pre generalizing m with
  | nil => rfl
  | cons msg rest ih =>
    have hm := h msg (List.mem_cons_self _ _)
    have hu := update_of_not_final m msg hm.1 hm.2.1 hm.2.2
    rw [List.cons_append, updates_cons, ← ih _ (fun x hx => h x (List.mem_cons_of_mem _ hx))]
    generalize hr : m.Update msg = r at hu
    obtain ⟨m1, c⟩ := r
    simp only at hu
    simp only [runProgram, hr, hu.1]

theorem update_cursor_bounds (m : instanceSelectorModel) (msg : Msg)
    (h : 0 ≤ m.cursor ∧ m.cursor < (m.instances.length : Int)) :
    0 ≤ (m.Update msg).1.cursor
      ∧ (m.Update msg).1.cursor < ((m.Update msg).1.instances.length : Int) := by
  rw [update_instances]
  unfold instanceSelectorModel.Update
  cases msg with
  | other => exact h
  | key s =>
    simp only
    split_ifs <;> simp only <;> omega

theorem updates_cursor_bounds (m : instanceSelectorModel) (msgs : List Msg)
    (h : 0 ≤ m.cursor ∧ m.cursor < (m.instances.length : Int)) :
    0 ≤ (updates m msgs).cursor ∧ (updates m msgs).cursor < (m.instances.length : Int) := by
  induction msgs generalizing m with
  | nil => exact h
  | cons msg rest ih =>
    rw [updates_cons]
    have := ih _ (update_cursor_bounds m msg h)
    rwa [update_instances] at this

theorem update_empty (msg : Msg) :
    ((initialModel []).Update msg).1 = initialModel [] := by
  unfold instanceSelectorModel.Update
  cases msg with
  | other => rfl
  | key s =>
    simp only [initialModel]
    split_ifs <;> first | rfl | simp_all

theorem updates_empty (msgs : List Msg) : updates (initialModel []) msgs = initialModel [] := by
  induction msgs with
  | nil => rfl
  | cons msg rest ih => rw [updates_cons, update_empty, ih]

theorem update_empty_cmd (msg : Msg) :
    ((initialModel []).Update msg).2
      = if msg = Msg.key "q" ∨ msg = Msg.key "ctrl+c" then some Cmd.quit else none := by
  unfold instanceSelectorModel.Update
  cases msg with
  | other => simp
  | key s =>
    by_cases h : s = "ctrl+c" ∨ s = "q"
    · have h2 : s = "q" ∨ s = "ctrl+c" := h.symm
      simp [h, h2]
    · have h2 : ¬ (s = "q" ∨ s = "ctrl+c") := fun x => h x.symm
      simp only [h, h2, if_false, Msg.key.injEq, initialModel]
      split_ifs <;> first | rfl | simp_all

theorem runProgram_empty (msgs : List Msg) :
    runProgram (initialModel []) msgs
      = if ∃ msg ∈ msgs, msg = Msg.key "q" ∨ msg = Msg.key "ctrl+c" then some (initialModel [])
        else none := by
  induction msgs with
  | nil => simp [runProgram]
  | cons msg rest ih =>
    have h1 := update_empty msg
    have h2 := update_empty_cmd msg
    generalize hr : (initialModel []).Update msg = r at h1 h2
    obtain ⟨m1, c⟩ := r
    simp only at h1 h2
    subst h1
    by_cases hq : msg = Msg.key "q" ∨ msg = Msg.key "ctrl+c"
    · rw [if_pos hq] at h2
      subst h2
      have : ∃ x ∈ msg :: rest, x = Msg.key "q" ∨ x = Msg.key "ctrl+c" :=
        ⟨msg, List.mem_cons_self _ _, hq⟩
      simp only [runProgram, hr, if_pos this]
    · rw [if_neg hq] at h2
      subst h2
      simp only [runProgram, hr, ih, List.mem_cons, exists_eq_or_imp, hq, false_or]

theorem viewLoop_eq_foldl (m : instanceSelectorModel) (l : List InstanceInfo) (i : Nat)
    (s : String) :
    viewLoop m i l s = (l.enumFrom i).foldl (fun acc p => acc ++ viewLine m p.1 p.2) s := by
  induction l generalizing i s with
  | nil => rfl
  | cons inst rest ih => simp only [viewLoop, List.enumFrom_cons, List.foldl_cons, ih]

theorem viewLine_mark (m : instanceSelectorModel) (i : Nat) (inst : InstanceInfo) :
    (viewLine m i inst).data.head? = some '>' ↔ m.cursor = (i : Int) := by
  unfold viewLine
  simp only [String.data_append]
  have e1 : ">".data = ['>'] := rfl
  have e2 : " ".data = [' '] := rfl
  by_cases h : m.cursor = (i : Int)
  · simp [h, e1, List.append_assoc]
  · simp [h, e2, List.append_assoc]

/-! ## Claims about the picker -/

/-- C1: for a non-empty instance list, pressing "down" `N` times from the initial model
leaves the cursor at `min N (len - 1)`, and pressing "up" `M` more times leaves a cursor
that is still at least 0. -/
theorem cursor_down_clamped_up_nonneg (instances : List InstanceInfo) (h : instances ≠ [])
    (N M : Nat) :
    (updates (initialModel instances) (List.replicate N (Msg.key "down"))).cursor
        = min (N : Int) ((instances.length : Int) - 1)
    ∧ 0 ≤ (updates (updates (initialModel instances) (List.replicate N (Msg.key "down")))
        (List.replicate M (Msg.key "up"))).cursor := by
  have hlen : 0 < instances.length := List.length_pos.mpr h
  refine ⟨downs_cursor instances h N, ups_cursor_nonneg _ ?_ M⟩
  rw [downs_cursor instances h N]
  omega

/-- Witness of C1 on a list of two targets, five "down" presses and one "up" press. -/
theorem cursor_down_clamped_up_nonneg_witness :
    [sampleLinux, sampleWindows] ≠ []
    ∧ (updates (initialModel [sampleLinux, sampleWindows])
        (List.replicate 5 (Msg.key "down"))).cursor
        = min ((5 : Nat) : Int) ((([sampleLinux, sampleWindows] : List InstanceInfo).length : Int) - 1)
    ∧ 0 ≤ (updates (updates (initialModel [sampleLinux, sampleWindows])
        (List.replicate 5 (Msg.key "down"))) (List.replicate 1 (Msg.key "up"))).cursor :=
  ⟨by simp, cursor_down_clamped_up_nonneg [sampleLinux, sampleWindows] (by simp) 5 1⟩

/-- C8: with the empty instance list no sequence of messages ever sets `selected`, and
`selectInstance` returns the "no instance selected" error as soon as the operator quits
(until then the program keeps waiting); and for every instance list, when the first
"enter", "q" or "ctrl+c" key of the input is "q" or "ctrl+c", `Update` returns the quit
command on it with `selected` still nil, and `selectInstance` returns the same error. -/
theorem no_selection_when_empty_or_cancelled :
    (∀ msgs : List Msg, (updates (initialModel []) msgs).selected = none)
    ∧ (∀ msgs : List Msg,
        selectInstance [] (Terminal.input msgs)
          = if ∃ msg ∈ msgs, msg = Msg.key "q" ∨ msg = Msg.key "ctrl+c"
            then some (Except.error "no instance selected") else none)
    ∧ (∀ (instances : List InstanceInfo) (pre rest : List Msg) (k : String),
        (k = "q" ∨ k = "ctrl+c") →
        (∀ msg ∈ pre, msg ≠ Msg.key "enter" ∧ msg ≠ Msg.key "q" ∧ msg ≠ Msg.key "ctrl+c") →
        (updates (initialModel instances) pre).Update (Msg.key k)
            = (updates (initialModel instances) pre, some Cmd.quit)
          ∧ (updates (initialModel instances) pre).selected = none
          ∧ runProgram (initialModel instances) (pre ++ Msg.key k :: rest)
            = some (updates (initialModel instances) pre)
          ∧ selectInstance instances (Terminal.input (pre ++ Msg.key k :: rest))
            = some (Except.error "no instance selected")) := by
  refine ⟨fun msgs => by rw [updates_empty]; rfl, fun msgs => ?_, ?_⟩
  · simp only [selectInstance, runProgram_empty]
    split_ifs <;> rfl
  · intro instances pre rest k hk hpre
    have hq := update_quit (updates (initialModel instances) pre) k hk
    have hs : (updates (initialModel instances) pre).selected = none := by
      rw [updates_selected_of_not_final _ _ hpre]; rfl
    have hr : runProgram (initialModel instances) (pre ++ Msg.key k :: rest)
        = some (updates (initialModel instances) pre) := by
      rw [runProgram_skip _ _ _ hpre]
      simp only [runProgram, hq]
    refine ⟨hq, hs, hr, ?_⟩
    simp only [selectInstance, hr, hs]

/-- Witness of C8: on a list of two targets, "down" then "q" (whatever follows) yields
the "no instance selected" error. -/
theorem no_selection_when_empty_or_cancelled_witness :
    selectInstance [sampleLinux, sampleWindows]
        (Terminal.input ([Msg.key "down"] ++ Msg.key "q" :: [Msg.key "enter"]))
      = some (Except.error "no instance selected") :=
  (no_selection_when_empty_or_cancelled.2.2 [sampleLinux, sampleWindows] [Msg.key "down"]
    [Msg.key "enter"] "q" (Or.inl rfl) (by simp)).2.2.2

/-- C10: for a non-empty instance list and keys that are all "up" or "down", the cursor
reached is an index `c` of the list; "enter" then makes `Update` return the quit command
with `selected` pointing at `instances[c]` (so `selectInstance` returns that pointer); the
rows of `View` are the `viewLine`s of the entries, and the row of entry `i` starts with
">" exactly when `i = c`; and no `Update` changes the instances list. -/
theorem enter_selects_highlighted (instances : List InstanceInfo) (h : instances ≠ [])
    (keys : List Msg) (hk : ∀ k ∈ keys, k = Msg.key "up" ∨ k = Msg.key "down") :
    ∃ c : Nat, c < instances.length
      ∧ (updates (initialModel instances) keys).cursor = (c : Int)
      ∧ (updates (initialModel instances) keys).Update (Msg.key "enter")
          = ({ updates (initialModel instances) keys with selected := some c }, some Cmd.quit)
      ∧ selectInstance instances (Terminal.input (keys ++ [Msg.key "enter"])) = some (Except.ok c)
      ∧ deref (updates (initialModel instances) keys).instances c = instances.get? c
      ∧ (∃ inst, instances.get? c = some inst)
      ∧ (updates (initialModel instances) keys).View
          = (instances.enum.map
              (fun p => viewLine (updates (initialModel instances) keys) p.1 p.2)).foldl
              (fun acc row => acc ++ row) viewHeader
      ∧ (∀ (i : Nat) (inst : InstanceInfo), instances.get? i = some inst →
          ((viewLine (updates (initialModel instances) keys) i inst).data.head? = some '>'
            ↔ i = c))
      ∧ (∀ (m : instanceSelectorModel) (msg : Msg), (m.Update msg).1.instances = m.instances) := by
  have hlen : 0 < instances.length := List.length_pos.mpr h
  have hb : 0 ≤ (updates (initialModel instances) keys).cursor
      ∧ (updates (initialModel instances) keys).cursor < (instances.length : Int) :=
    updates_cursor_bounds (initialModel instances) keys
      (by show (0 : Int) ≤ 0 ∧ (0 : Int) < (instances.length : Int); omega)
  have hnf : ∀ msg ∈ keys,
      msg ≠ Msg.key "enter" ∧ msg ≠ Msg.key "q" ∧ msg ≠ Msg.key "ctrl+c" := by
    intro msg hmem
    rcases hk msg hmem with e | e <;> subst e <;> simp
  have hi : (updates (initialModel instances) keys).instances = instances :=
    updates_instances _ _
  have hc : (updates (initialModel instances) keys).cursor
      = (((updates (initialModel instances) keys).cursor.toNat : Nat) : Int) := by
    rw [Int.toNat_of_nonneg hb.1]
  have hlt : (updates (initialModel instances) keys).cursor.toNat < instances.length := by
    omega
  have hu : (updates (initialModel instances) keys).Update (Msg.key "enter")
      = ({ updates (initialModel instances) keys with
            selected := some (updates (initialModel instances) keys).cursor.toNat },
          some Cmd.quit) := by
    rw [update_enter, if_pos (by rw [hi]; exact hb)]
  refine ⟨(updates (initialModel instances) keys).cursor.toNat, hlt, hc, hu, ?_, ?_, ?_, ?_, ?_,
    update_instances⟩
  · simp only [selectInstance]
    rw [runProgram_skip _ _ _ hnf]
    simp only [runProgram, hu]
  · rw [hi]; rfl
  · exact ⟨instances.get ⟨_, hlt⟩, List.get?_eq_get hlt⟩
  · simp only [instanceSelectorModel.View, viewLoop_eq_foldl, hi, List.foldl_map, List.enum]
  · intro i inst _
    rw [viewLine_mark]
    constructor
    · intro e; omega
    · intro e; subst e; exact hc

/-- Witness of C10: on a list of two targets, "down", "down", "up", "down" then "enter". -/
theorem enter_selects_highlighted_witness :
    ∃ c : Nat, c < ([sampleLinux, sampleWindows] : List InstanceInfo).length
      ∧ selectInstance [sampleLinux, sampleWindows]
          (Terminal.input ([Msg.key "down", Msg.key "down", Msg.key "up", Msg.key "down"]
            ++ [Msg.key "enter"])) = some (Except.ok c) := by
  obtain ⟨c, h1, _, _, h4, _⟩ := enter_selects_highlighted [sampleLinux, sampleWindows]
    (by simp) [Msg.key "down", Msg.key "down", Msg.key "up", Msg.key "down"] (by simp)
  exact ⟨c, h1, h4⟩

/-! ## Instance directory: helper lemmas -/

theorem stringsContains_iff (s substr : String) :
    stringsContains s substr = true ↔ substr.data <:+: s.data := by
  unfold stringsContains
  rw [List.any_eq_true]
  constructor
  · rintro ⟨t, ht, hp⟩
    rw [List.mem_tails] at ht
    rw [List.isPrefixOf_iff_prefix] at hp
    exact hp.isInfix.trans ht.isInfix
  · intro h
    obtain ⟨t, hp, ht⟩ := List.infix_iff_prefix_suffix.mp h
    exact ⟨t, (List.mem_tails _ _).mpr ht, List.isPrefixOf_iff_prefix.mpr hp⟩

theorem displayName_eq_find (tags : List Tag) :
    displayName tags
      = match tags.find? (fun t => decide (t.Key = "Name")) with
        | some t => t.Value
        | none => "(no name)" := by
  induction tags with
  | nil => rfl
  | cons tag rest ih =>
    by_cases h : tag.Key = "Name"
    · simp [displayName, List.find?, h]
    · simp only [displayName, List.find?, h, if_false, decide_False]
      exact ih

theorem mem_foldl_set (page : List String) (ids : IdSet) (id : String) :
    id ∈ page.foldl (fun acc x => IdSet.set acc x) ids ↔ id ∈ ids ∨ id ∈ page := by
  induction page generalizing ids with
  | nil => simp
  | cons x rest ih =>
    rw [List.foldl_cons, ih]
    unfold IdSet.set
    by_cases hx : x ∈ ids
    · rw [if_pos hx, List.mem_cons]
      constructor
      · rintro (h | h)
        · exact Or.inl h
        · exact Or.inr (Or.inr h)
      · rintro (h | h | h)
        · exact Or.inl h
        · exact Or.inl (h ▸ hx)
        · exact Or.inr h
    · rw [if_neg hx, List.mem_cons, List.mem_cons]
      tauto

theorem mem_collectSsmIDs (ssmPages : List (Except String (List String))) (ids out : IdSet)
    (h : collectSsmIDs ssmPages ids = Except.ok out) (id : String) :
    id ∈ out ↔ id ∈ ids ∨ id ∈ registryIDs ssmPages := by
  induction ssmPages generalizing ids with
  | nil =>
    simp only [collectSsmIDs, Except.ok.injEq] at h
    subst h
    simp [registryIDs]
  | cons p rest ih =>
    cases p with
    | error e => simp [collectSsmIDs] at h
    | ok page =>
      simp only [collectSsmIDs] at h
      rw [ih _ h, mem_foldl_set]
      simp only [registryIDs, List.map_cons, List.flatten_cons, List.mem_append]
      tauto

theorem collectSsmIDs_ok (pages : List (List String)) (ids : IdSet) :
    ∃ out, collectSsmIDs (pages.map Except.ok) ids = Except.ok out := by
  induction pages generalizing ids with
  | nil => exact ⟨ids, rfl⟩
  | cons page rest ih => exact ih _

theorem registryIDs_ok (pages : List (List String)) :
    registryIDs (pages.map Except.ok) = pages.flatten := by
  induction pages with
  | nil => rfl
  | cons page rest ih =>
    simp only [registryIDs, List.map_cons, List.flatten_cons] at ih ⊢
    rw [ih]

theorem specDisplayName_eq (inst : Instance) :
    specDisplayName inst = displayName inst.Tags :=
  (displayName_eq_find inst.Tags).symm

theorem specEligible_eq (ssmIDs : IdSet) (inst : Instance) :
    specEligible ssmIDs inst
      = (ssmIDs.has inst.InstanceId
          && !stringsContains (displayName inst.Tags) "Storage-Gateway") := by
  unfold specEligible IdSet.has
  rw [specDisplayName_eq]
  congr 2
  rw [Bool.eq_iff_iff, decide_eq_true_iff, stringsContains_iff]

theorem instancesLoop_eq (toLower : String → String) (ssmIDs : IdSet) (l : List Instance)
    (acc : List InstanceInfo) :
    instancesLoop toLower ssmIDs l acc
      = acc ++ (l.filter (specEligible ssmIDs)).map (specTarget toLower) := by
  induction l generalizing acc with
  | nil => simp [instancesLoop]
  | cons inst rest ih =>
    unfold instancesLoop
    simp only
    by_cases hc : stringsContains (displayName inst.Tags) "Storage-Gateway" = true
    · have he : specEligible ssmIDs inst = false := by simp [specEligible_eq, hc]
      rw [if_pos hc, ih, List.filter_cons_of_neg (by simp [he])]
    · by_cases hm : ssmIDs.has inst.InstanceId = true
      · have he : specEligible ssmIDs inst = true := by simp [specEligible_eq, hc, hm]
        rw [if_neg hc, if_neg (by simp [hm]), ih, List.filter_cons_of_pos he]
        have ht : specTarget toLower inst
            = { ID := inst.InstanceId, Name := displayName inst.Tags,
                PrivateIP := (match inst.PrivateIpAddress with
                  | some a => a
                  | none => "-"),
                Platform := if inst.Platform ≠ "" then toLower inst.Platform else "" } := by
          unfold specTarget
          rw [specDisplayName_eq]
          congr 1
          · cases inst.PrivateIpAddress <;> rfl
          · by_cases hp : inst.Platform = "" <;> simp [hp]
        rw [List.map_cons, ht]
        simp
      · have he : specEligible ssmIDs inst = false := by simp [specEligible_eq, hm]
        rw [if_neg hc, if_pos (by simp [hm]), ih, List.filter_cons_of_neg (by simp [he])]

theorem reservationsLoop_eq (toLower : String → String) (ssmIDs : IdSet)
    (rs : List Reservation) (acc : List InstanceInfo) :
    reservationsLoop toLower ssmIDs rs acc = acc ++ listTargetsSpec toLower ssmIDs rs := by
  induction rs generalizing acc with
  | nil => simp [reservationsLoop, listTargetsSpec]
  | cons r rest ih =>
    simp only [reservationsLoop, ih, instancesLoop_eq]
    simp [listTargetsSpec, List.append_assoc]

theorem specEligible_congr (a b : List String) (h : ∀ id, id ∈ a ↔ id ∈ b) :
    specEligible a = specEligible b := by
  funext inst
  simp only [specEligible, h]

theorem listRunningInstances_ok (toLower : String → String)
    (ssmPages : List (Except String (List String)))
    (describe : Except String (List Reservation)) (out : List InstanceInfo)
    (h : listRunningInstances toLower ssmPages describe = Except.ok out) :
    ∃ reservations, describe = Except.ok reservations
      ∧ out = listTargetsSpec toLower (registryIDs ssmPages) reservations := by
  unfold listRunningInstances at h
  cases hc : collectSsmIDs ssmPages [] with
  | error e => simp [hc] at h
  | ok ids =>
    cases describe with
    | error e => simp [hc] at h
    | ok reservations =>
      simp only [hc, Except.ok.injEq] at h
      refine ⟨reservations, rfl, ?_⟩
      rw [← h, reservationsLoop_eq, List.nil_append]
      unfold listTargetsSpec
      rw [specEligible_congr ids (registryIDs ssmPages)
        (fun id => by rw [mem_collectSsmIDs ssmPages [] ids hc id]; simp)]

theorem mem_listTargetsSpec (toLower : String → String) (snapshot : List String)
    (reservations : List Reservation) (info : InstanceInfo) :
    info ∈ listTargetsSpec toLower snapshot reservations ↔
      ∃ res ∈ reservations, ∃ inst ∈ res.Instances,
        inst.InstanceId ∈ snapshot
          ∧ ¬ ("Storage-Gateway".data <:+: (specDisplayName inst).data)
          ∧ info = specTarget toLower inst := by
  simp only [listTargetsSpec, List.mem_map, List.mem_filter, List.mem_flatten, specEligible,
    Bool.and_eq_true, decide_eq_true_eq, Bool.not_eq_true', decide_eq_false_iff_not]
  constructor
  · rintro ⟨inst, ⟨⟨l, ⟨res, hres, rfl⟩, hin⟩, hid, hn⟩, rfl⟩
    exact ⟨res, hres, inst, hin, hid, hn, rfl⟩
  · rintro ⟨res, hres, inst, hin, hid, hn, rfl⟩
    exact ⟨inst, ⟨⟨_, ⟨res, hres, rfl⟩, hin⟩, hid, hn⟩, rfl⟩

/-! ## Claims about the instance directory -/

/-- C2: every target `listRunningInstances` returns has an ID that occurs on one of the
agent-registry pages it was given. -/
theorem listed_ids_in_registry (toLower : String → String)
    (ssmPages : List (Except String (List String)))
    (describe : Except String (List Reservation)) (out : List InstanceInfo)
    (h : listRunningInstances toLower ssmPages describe = Except.ok out) :
    ∀ info ∈ out, info.ID ∈ registryIDs ssmPages := by
  obtain ⟨reservations, _, rfl⟩ := listRunningInstances_ok toLower ssmPages describe out h
  intro info hinfo
  obtain ⟨_, _, inst, _, hid, _, rfl⟩ := (mem_listTargetsSpec _ _ _ _).mp hinfo
  exact hid

/-- Witness of C2 on two registry pages and two reservations. -/
theorem listed_ids_in_registry_witness :
    listRunningInstances sampleToLower samplePages (Except.ok sampleReservations)
        = Except.ok [sampleLinux, sampleBareTarget]
    ∧ ∀ info ∈ [sampleLinux, sampleBareTarget], info.ID ∈ registryIDs samplePages :=
  ⟨rfl, listed_ids_in_registry sampleToLower samplePages (Except.ok sampleReservations)
    [sampleLinux, sampleBareTarget] rfl⟩

/-- C3: no target `listRunningInstances` returns has a name containing "Storage-Gateway";
the name of a target is the value of the first tag with key "Name" of the instance it
was built from, or "(no name)" when the instance has no such tag. -/
theorem listed_names_without_marker (toLower : String → String)
    (ssmPages : List (Except String (List String)))
    (describe : Except String (List Reservation)) (out : List InstanceInfo)
    (h : listRunningInstances toLower ssmPages describe = Except.ok out) :
    ∀ info ∈ out,
      stringsContains info.Name "Storage-Gateway" = false
      ∧ ¬ ("Storage-Gateway".data <:+: info.Name.data)
      ∧ ∃ reservations, describe = Except.ok reservations
        ∧ ∃ res ∈ reservations, ∃ inst ∈ res.Instances,
            info.ID = inst.InstanceId
            ∧ info.Name = match inst.Tags.find? (fun t => decide (t.Key = "Name")) with
                | some t => t.Value
                | none => "(no name)" := by
  obtain ⟨reservations, hd, rfl⟩ := listRunningInstances_ok toLower ssmPages describe out h
  intro info hinfo
  obtain ⟨res, hres, inst, hin, _, hn, rfl⟩ := (mem_listTargetsSpec _ _ _ _).mp hinfo
  refine ⟨?_, hn, reservations, hd, res, hres, inst, hin, rfl, rfl⟩
  cases hc : stringsContains (specTarget toLower inst).Name "Storage-Gateway" with
  | false => rfl
  | true => exact absurd ((stringsContains_iff _ _).mp hc) hn

/-- Witness of C3: the gateway instance of the sample answer is not listed. -/
theorem listed_names_without_marker_witness :
    listRunningInstances sampleToLower samplePages (Except.ok sampleReservations)
        = Except.ok [sampleLinux, sampleBareTarget]
    ∧ ∀ info ∈ [sampleLinux, sampleBareTarget],
        stringsContains info.Name "Storage-Gateway" = false :=
  ⟨rfl, fun info hinfo =>
    (listed_names_without_marker sampleToLower samplePages (Except.ok sampleReservations)
      [sampleLinux, sampleBareTarget] rfl info hinfo).1⟩

/-- C4 as stated fails: when `DescribeInstances` lists the instance `i-0a1` in two
reservations, the returned list has two entries with that ID. -/
theorem listRunningInstances_repeats_ids :
    listRunningInstances sampleToLower samplePages (Except.ok sampleRepeated)
        = Except.ok [sampleLinux, sampleLinux]
    ∧ ¬ ([sampleLinux, sampleLinux].map InstanceInfo.ID).Nodup := by
  constructor
  · rfl
  · decide

/-- C4, amended: `listRunningInstances` does not deduplicate. The IDs of the list it
returns are, in input order, the IDs of the instance occurrences in the reservations that
are connectable (ID on a registry page, display name without "Storage-Gateway"). So every
ID occurs in the result exactly as many times as it occurs among the connectable input
occurrences, and no two entries of the result have the same ID if and only if no ID occurs
twice among the connectable input occurrences. -/
theorem listed_ids_same_multiplicity (toLower : String → String)
    (ssmPages : List (Except String (List String)))
    (reservations : List Reservation) (out : List InstanceInfo)
    (h : listRunningInstances toLower ssmPages (Except.ok reservations) = Except.ok out) :
    out.map InstanceInfo.ID
        = ((reservations.map (fun r => r.Instances)).flatten.filter
            (specEligible (registryIDs ssmPages))).map (fun inst => inst.InstanceId)
    ∧ (∀ id : String, (out.map InstanceInfo.ID).count id
        = (((reservations.map (fun r => r.Instances)).flatten.filter
            (specEligible (registryIDs ssmPages))).map (fun inst => inst.InstanceId)).count id)
    ∧ ((out.map InstanceInfo.ID).Nodup
        ↔ (((reservations.map (fun r => r.Instances)).flatten.filter
            (specEligible (registryIDs ssmPages))).map (fun inst => inst.InstanceId)).Nodup) := by
  obtain ⟨rs, hd, rfl⟩ := listRunningInstances_ok toLower ssmPages _ out h
  simp only [Except.ok.injEq] at hd
  subst hd
  have e : (listTargetsSpec toLower (registryIDs ssmPages) reservations).map InstanceInfo.ID
      = ((reservations.map (fun r => r.Instances)).flatten.filter
          (specEligible (registryIDs ssmPages))).map (fun inst => inst.InstanceId) := by
    unfold listTargetsSpec
    rw [List.map_map]
    rfl
  rw [e]
  exact ⟨rfl, fun _ => rfl, Iff.rfl⟩

/-- Witness of the amended C4: with the excluded gateway instance listed twice, the two
connectable instances are listed once each. -/
theorem listed_ids_same_multiplicity_witness :
    listRunningInstances sampleToLower samplePages (Except.ok sampleGatewayTwice)
        = Except.ok [sampleLinux, sampleBareTarget]
    ∧ ¬ (((sampleGatewayTwice.map (fun r => r.Instances)).flatten).map
        (fun inst => inst.InstanceId)).Nodup
    ∧ ([sampleLinux, sampleBareTarget].map InstanceInfo.ID).Nodup :=
  ⟨rfl, by decide,
    (listed_ids_same_multiplicity sampleToLower samplePages sampleGatewayTwice
      [sampleLinux, sampleBareTarget] rfl).2.2.mpr (by decide)⟩

/-- C9: on registry pages that all arrive and a `DescribeInstances` answer,
`listRunningInstances` returns exactly the list the specification describes
(`listTargetsSpec`): in input order, the instances whose ID is on a registry page and whose
display name (value of the first "Name" tag, or "(no name)") does not contain
"Storage-Gateway", each mapped to the target with that ID and display name, the private
address or "-" when it is missing, and the lowercased platform tag or "" when it is empty;
so every such instance has its target in the returned list. -/
theorem listRunningInstances_eq_filter_map (toLower : String → String)
    (pages : List (List String)) (reservations : List Reservation) :
    listRunningInstances toLower (pages.map Except.ok) (Except.ok reservations)
        = Except.ok (listTargetsSpec toLower pages.flatten reservations)
    ∧ ∀ res ∈ reservations, ∀ inst ∈ res.Instances,
        inst.InstanceId ∈ pages.flatten →
        ¬ ("Storage-Gateway".data <:+: (specDisplayName inst).data) →
        ∃ out, listRunningInstances toLower (pages.map Except.ok) (Except.ok reservations)
            = Except.ok out
          ∧ ({ ID := inst.InstanceId
               Name := specDisplayName inst
               PrivateIP := inst.PrivateIpAddress.getD "-"
               Platform := if inst.Platform = "" then "" else toLower inst.Platform }
              : InstanceInfo) ∈ out := by
  have hmain : listRunningInstances toLower (pages.map Except.ok) (Except.ok reservations)
      = Except.ok (listTargetsSpec toLower pages.flatten reservations) := by
    obtain ⟨ids, hids⟩ := collectSsmIDs_ok pages []
    have hl : listRunningInstances toLower (pages.map Except.ok) (Except.ok reservations)
        = Except.ok (reservationsLoop toLower ids reservations []) := by
      simp only [listRunningInstances, hids]
    obtain ⟨rs, hd, hout⟩ := listRunningInstances_ok _ _ _ _ hl
    simp only [Except.ok.injEq] at hd
    subst hd
    rw [hl, hout, registryIDs_ok]
  refine ⟨hmain, ?_⟩
  intro res hres inst hin hid hn
  exact ⟨_, hmain, (mem_listTargetsSpec _ _ _ _).mpr ⟨res, hres, inst, hin, hid, hn, rfl⟩⟩

/-- Witness of C9: the sample answer yields the Linux target and the Windows target
without name and private address, whose platform tag `Windows` is lowercased; the gateway
instance is dropped. -/
theorem listRunningInstances_eq_filter_map_witness :
    listRunningInstances sampleToLower
        ([["i-0a1", "i-0c3"], ["i-0b2", "i-0a1"]].map Except.ok) (Except.ok sampleReservations)
      = Except.ok
          [{ ID := "i-0a1", Name := "web-1", PrivateIP := "10.0.0.5", Platform := "" },
           { ID := "i-0b2", Name := "(no name)", PrivateIP := "-", Platform := "windows" }] :=
  (listRunningInstances_eq_filter_map sampleToLower [["i-0a1", "i-0c3"], ["i-0b2", "i-0a1"]]
    sampleReservations).1.trans (congrArg Except.ok (by decide))

/-! ## Claims about key parsing -/

/-- C5: with the PEM decoder and the two container parsers arbitrary, `sshParsePrivateKey`
fails when no PEM block is decoded; returns the key of format A when format A accepts,
whatever the format-B parser is; returns the key of format B when format A rejects and
format B accepts with an RSA key; and fails when format A rejects and format B accepts
with a key of another family or rejects too. -/
theorem sshParsePrivateKey_cases {R O : Type} (pemDecode : List Nat → Option Block)
    (parsePKCS1 : List Nat → Except String R)
    (parsePKCS8 : List Nat → Except String (AnyKey R O)) (pemBytes : List Nat) :
    (pemDecode pemBytes = none →
        sshParsePrivateKey pemDecode parsePKCS1 parsePKCS8 pemBytes
          = Except.error "failed to parse PEM block containing the key")
    ∧ (∀ (block : Block) (priv : R), pemDecode pemBytes = some block →
        parsePKCS1 block.Bytes = Except.ok priv →
        ∀ formatB : List Nat → Except String (AnyKey R O),
          sshParsePrivateKey pemDecode parsePKCS1 formatB pemBytes = Except.ok priv)
    ∧ (∀ (block : Block) (e : String) (k : R), pemDecode pemBytes = some block →
        parsePKCS1 block.Bytes = Except.error e →
        parsePKCS8 block.Bytes = Except.ok (AnyKey.rsa k) →
        sshParsePrivateKey pemDecode parsePKCS1 parsePKCS8 pemBytes = Except.ok k)
    ∧ (∀ (block : Block) (e : String) (k : O), pemDecode pemBytes = some block →
        parsePKCS1 block.Bytes = Except.error e →
        parsePKCS8 block.Bytes = Except.ok (AnyKey.nonRsa k) →
        sshParsePrivateKey pemDecode parsePKCS1 parsePKCS8 pemBytes
          = Except.error "failed to parse private key")
    ∧ (∀ (block : Block) (e e2 : String), pemDecode pemBytes = some block →
        parsePKCS1 block.Bytes = Except.error e →
        parsePKCS8 block.Bytes = Except.error e2 →
        sshParsePrivateKey pemDecode parsePKCS1 parsePKCS8 pemBytes
          = Except.error "failed to parse private key") := by
  refine ⟨?_, ?_, ?_, ?_, ?_⟩
  · intro h
    simp only [sshParsePrivateKey, h]
  · intro block priv hb h1 formatB
    simp only [sshParsePrivateKey, hb, h1]
  · intro block e k hb h1 h8
    simp only [sshParsePrivateKey, hb, h1, h8]
  · intro block e k hb h1 h8
    simp only [sshParsePrivateKey, hb, h1, h8]
  · intro block e e2 hb h1 h8
    simp only [sshParsePrivateKey, hb, h1, h8]

/-- Witness of C5 with the toy decoder and parsers: no block, a format-A key (also with a
format-B parser that would accept another key), a format-B RSA key, a format-B key of
another family, and a block neither parser accepts. -/
theorem sshParsePrivateKey_cases_witness :
    sshParsePrivateKey samplePemDecode samplePKCS1 samplePKCS8 []
        = Except.error "failed to parse PEM block containing the key"
    ∧ sshParsePrivateKey samplePemDecode samplePKCS1
        (fun _ => (Except.ok (AnyKey.rsa 99) : Except String (AnyKey Nat Nat))) [0, 1, 7]
        = Except.ok 7
    ∧ sshParsePrivateKey samplePemDecode samplePKCS1 samplePKCS8 [0, 8, 0, 5] = Except.ok 5
    ∧ sshParsePrivateKey samplePemDecode samplePKCS1 samplePKCS8 [0, 8, 1, 5]
        = Except.error "failed to parse private key"
    ∧ sshParsePrivateKey samplePemDecode samplePKCS1 samplePKCS8 [0, 3]
        = Except.error "failed to parse private key" :=
  ⟨(sshParsePrivateKey_cases samplePemDecode samplePKCS1 samplePKCS8 []).1 rfl,
   (sshParsePrivateKey_cases samplePemDecode samplePKCS1 samplePKCS8 [0, 1, 7]).2.1
      { Bytes := [1, 7] } 7 rfl rfl _,
   (sshParsePrivateKey_cases samplePemDecode samplePKCS1 samplePKCS8 [0, 8, 0, 5]).2.2.1
      { Bytes := [8, 0, 5] } _ 5 rfl rfl rfl,
   (sshParsePrivateKey_cases samplePemDecode samplePKCS1 samplePKCS8 [0, 8, 1, 5]).2.2.2.1
      { Bytes := [8, 1, 5] } _ 5 rfl rfl rfl,
   (sshParsePrivateKey_cases samplePemDecode samplePKCS1 samplePKCS8 [0, 3]).2.2.2.2
      { Bytes := [3] } _ _ rfl rfl rfl⟩

/-! ## Session dispatch: helper lemmas -/

theorem boldPrint_ne_keyPrompt (s : String) :
    "\x1b[1m" ++ s ++ "\x1b[0m\n" ≠ keyPrompt := by
  intro h
  have h2 := congrArg (fun t : String => t.data.head?) h
  have e : "\x1b[1m".data = ['\x1b', '[', '1', 'm'] := rfl
  simp only [String.data_append, e, List.cons_append, List.head?_cons] at h2
  exact absurd h2 (by decide)

theorem sessionResult_events (instanceID : String) (err : Option RunError) :
    ∀ ev ∈ (sessionResult instanceID err).1, ∃ s, ev = Event.stdout s ∧ s ≠ keyPrompt := by
  intro ev hev
  unfold sessionResult at hev
  split at hev
  · simp at hev
  · split_ifs at hev
    · simp only [List.mem_cons, List.mem_singleton, List.not_mem_nil, or_false] at hev
      rcases hev with rfl | rfl
      · exact ⟨_, rfl, by decide⟩
      · exact ⟨_, rfl, by decide⟩
    · simp at hev
  · simp at hev

theorem finish_events (err : Option String) :
    ∀ ev ∈ (finish err).1, ∃ msg, ev = Event.logFatal msg := by
  intro ev hev
  unfold finish at hev
  split at hev
  · simp at hev
  · split_ifs at hev
    · simp only [List.mem_singleton] at hev
      exact ⟨_, hev⟩
    · simp at hev

theorem getWindowsPassword_events {R O : Type} (w : World R O) (instanceID keyPath : String) :
    ∃ rest, (getWindowsPassword w instanceID keyPath).1 = Event.getPasswordData instanceID :: rest
      ∧ ∀ ev ∈ rest, ev = Event.readFile keyPath := by
  unfold getWindowsPassword
  split
  · exact ⟨[], rfl, by simp⟩
  · exact ⟨[], rfl, by simp⟩
  · split_ifs
    · exact ⟨[], rfl, by simp⟩
    · split
      · exact ⟨_, rfl, by simp⟩
      · split
        · exact ⟨_, rfl, by simp⟩
        · split
          · exact ⟨_, rfl, by simp⟩
          · exact ⟨_, rfl, by simp⟩

theorem copyToClipboard_events {R O : Type} (w : World R O) (s : String) :
    ∀ ev ∈ (copyToClipboard w s).1, ev = Event.clipboardWrite s := by
  intro ev hev
  unfold copyToClipboard at hev
  split at hev
  · simp at hev
  · simpa using hev

theorem killAll_events {R O : Type} (w : World R O) (pids : List String) :
    ∀ ev ∈ (killAll w pids).1, ∃ pid, ev = Event.exec ["kill", "-9", pid] := by
  induction pids with
  | nil => intro ev hev; simp [killAll] at hev
  | cons pid rest ih =>
    intro ev hev
    unfold killAll at hev
    split at hev
    · simp only [List.mem_singleton] at hev
      exact ⟨pid, hev⟩
    · simp only [List.mem_cons] at hev
      rcases hev with rfl | hev
      · exact ⟨pid, rfl⟩
      · exact ih ev hev

theorem killProcessOnPort_events {R O : Type} (w : World R O) (n : Nat) (port : String) :
    ∀ ev ∈ (killProcessOnPort w n port).1,
      ∃ argv, ev = Event.exec argv ∧ (argv.head? = some "lsof" ∨ argv.head? = some "kill") := by
  intro ev hev
  unfold killProcessOnPort at hev
  split at hev
  · simp only [List.mem_singleton] at hev
    exact ⟨_, hev, Or.inl rfl⟩
  · simp only [List.mem_cons] at hev
    rcases hev with rfl | hev
    · exact ⟨_, rfl, Or.inl rfl⟩
    · obtain ⟨pid, rfl⟩ := killAll_events w _ ev hev
      exact ⟨_, rfl, Or.inr rfl⟩

theorem portLoop_events {R O : Type} (w : World R O) (port : String) (fuel n : Nat) :
    ∀ ev ∈ (portLoop w port fuel n).1,
      ev = Event.dialPort port ∨ ev = Event.sleep 1 ∨ (∃ s, ev = Event.stdout s)
        ∨ ∃ argv, ev = Event.exec argv
            ∧ (argv.head? = some "lsof" ∨ argv.head? = some "kill") := by
  induction fuel generalizing n with
  | zero => intro ev hev; simp [portLoop] at hev
  | succ fuel ih =>
    intro ev hev
    unfold portLoop at hev
    simp only [isPortInUse, List.cons_append, List.nil_append] at hev
    split_ifs at hev with hp
    · split at hev
      · simp only [List.mem_cons] at hev
        rcases hev with rfl | rfl | hev
        · exact Or.inl rfl
        · exact Or.inr (Or.inr (Or.inl ⟨_, rfl⟩))
        · exact Or.inr (Or.inr (Or.inr (killProcessOnPort_events w n port ev hev)))
      · simp only [List.mem_cons, List.mem_append, List.cons_append] at hev
        rcases hev with rfl | rfl | hev | rfl | rfl | hev
        · exact Or.inl rfl
        · exact Or.inr (Or.inr (Or.inl ⟨_, rfl⟩))
        · exact Or.inr (Or.inr (Or.inr (killProcessOnPort_events w n port ev hev)))
        · exact Or.inr (Or.inr (Or.inl ⟨_, rfl⟩))
        · exact Or.inr (Or.inl rfl)
        · exact ih _ ev hev
    · simp only [List.mem_singleton] at hev
      exact Or.inl hev

theorem portLoop_head {R O : Type} (w : World R O) (port : String) (fuel n : Nat)
    (h : 0 < fuel) :
    ∃ rest, (portLoop w port fuel n).1 = Event.dialPort port :: rest := by
  obtain ⟨k, rfl⟩ := Nat.exists_eq_succ_of_ne_zero (Nat.pos_iff_ne_zero.mp h)
  unfold portLoop
  simp only [isPortInUse, List.cons_append, List.nil_append]
  split_ifs
  · split
    · exact ⟨_, rfl⟩
    · exact ⟨_, rfl⟩
  · exact ⟨_, rfl⟩

theorem startPortForward_events {R O : Type} (w : World R O) (fuel : Nat)
    (instanceID region : String) :
    (∃ rest, (startPortForward w fuel instanceID region).1
        = (portLoop w "9000" fuel 0).1 ++ rest)
    ∧ ∀ ev ∈ (startPortForward w fuel instanceID region).1,
        Event.exec (shellArgv instanceID region) ≠ ev := by
  have hl : ∀ ev ∈ (portLoop w "9000" fuel 0).1,
      Event.exec (shellArgv instanceID region) ≠ ev := by
    intro ev hev
    rcases portLoop_events w "9000" fuel 0 ev hev with rfl | rfl | ⟨s, rfl⟩ | ⟨argv, rfl, ha⟩
    · simp
    · simp
    · simp
    · intro e
      simp only [Event.exec.injEq] at e
      subst e
      simp [shellArgv] at ha
  unfold startPortForward
  simp only
  split
  · exact ⟨⟨[], by simp⟩, hl⟩
  · exact ⟨⟨[], by simp⟩, hl⟩
  · refine ⟨⟨_, by rw [List.append_assoc, List.append_assoc]⟩, ?_⟩
    intro ev hev
    simp only [List.mem_append, List.mem_cons, boldPrint, List.mem_singleton,
      List.not_mem_nil, or_false] at hev
    rcases hev with ((hev | rfl) | rfl | rfl | rfl | rfl | rfl) | hev
    · exact hl ev hev
    · simp
    · simp
    · simp
    · simp
    · simp
    · simp [shellArgv, portForwardArgv]
    · obtain ⟨s, rfl, _⟩ := sessionResult_events _ _ ev hev
      simp

theorem dispatch_shell {R O : Type} (w : World R O) (fuel : Nat) (selected : InstanceInfo)
    (region : String) (h : selected.Platform ≠ "windows") :
    dispatch w fuel selected region
      = (boldPrint ("✅ Selected instance: " ++ selected.Name ++ " (" ++ selected.ID ++ ")")
          ++ (startShellSession w selected.ID region).1
          ++ (finish (startShellSession w selected.ID region).2).1,
        some (finish (startShellSession w selected.ID region).2).2) := by
  unfold dispatch
  simp only [if_neg h]

theorem dispatch_windows_error {R O : Type} (w : World R O) (fuel : Nat)
    (selected : InstanceInfo) (region : String) (h : selected.Platform = "windows")
    (e : String) (he : (getWindowsPassword w selected.ID w.stdinLine).2 = Except.error e) :
    dispatch w fuel selected region
      = (boldPrint ("✅ Selected instance: " ++ selected.Name ++ " (" ++ selected.ID ++ ")")
          ++ [Event.stdout keyPrompt, Event.readStdin]
          ++ (getWindowsPassword w selected.ID w.stdinLine).1
          ++ [Event.logFatal ("❌ Failed to get Windows password: " ++ e)],
        some 1) := by
  unfold dispatch
  simp only [if_pos h, readLine, he]

theorem dispatch_windows_ok {R O : Type} (w : World R O) (fuel : Nat)
    (selected : InstanceInfo) (region : String) (h : selected.Platform = "windows")
    (password : String)
    (hg : (getWindowsPassword w selected.ID w.stdinLine).2 = Except.ok password) :
    ∃ tail, (dispatch w fuel selected region).1
      = boldPrint ("✅ Selected instance: " ++ selected.Name ++ " (" ++ selected.ID ++ ")")
          ++ [Event.stdout keyPrompt, Event.readStdin]
          ++ (getWindowsPassword w selected.ID w.stdinLine).1
          ++ (copyToClipboard w password).1
          ++ yellowBoldPrint
              ("🔐 Windows Administrator password (copied to clipboard): " ++ password)
          ++ (startPortForward w fuel selected.ID region).1
          ++ tail
      ∧ ∀ ev ∈ tail, ∃ msg, ev = Event.logFatal msg := by
  unfold dispatch
  simp only [if_pos h, readLine, hg]
  split
  · exact ⟨[], by simp, by simp⟩
  · exact ⟨_, rfl, finish_events _⟩

/-- After the Windows branch `main` ends with status 0 and without a fatal log, whatever
error `startPortForward` returned: that error went to the `err` of the `if` block. -/
theorem dispatch_windows_exit {R O : Type} (w : World R O) (fuel : Nat)
    (selected : InstanceInfo) (region : String) (h : selected.Platform = "windows")
    (password : String)
    (hg : (getWindowsPassword w selected.ID w.stdinLine).2 = Except.ok password)
    (err : Option String) (hf : (startPortForward w fuel selected.ID region).2 = some err) :
    dispatch w fuel selected region
      = (boldPrint ("✅ Selected instance: " ++ selected.Name ++ " (" ++ selected.ID ++ ")")
          ++ [Event.stdout keyPrompt, Event.readStdin]
          ++ (getWindowsPassword w selected.ID w.stdinLine).1
          ++ (copyToClipboard w password).1
          ++ yellowBoldPrint
              ("🔐 Windows Administrator password (copied to clipboard): " ++ password)
          ++ (startPortForward w fuel selected.ID region).1,
        some 0) := by
  unfold dispatch
  simp only [if_pos h, readLine, hg, hf, finish, List.append_nil]

theorem dispatch_shell_events {R O : Type} (w : World R O) (fuel : Nat) (selected : InstanceInfo)
    (region : String) (h : selected.Platform ≠ "windows") :
    ∀ ev ∈ (dispatch w fuel selected region).1,
      ev = Event.exec (shellArgv selected.ID region)
        ∨ (∃ s, ev = Event.stdout s ∧ s ≠ keyPrompt) ∨ ∃ msg, ev = Event.logFatal msg := by
  intro ev hev
  rw [dispatch_shell w fuel selected region h] at hev
  simp only [startShellSession, boldPrint, List.mem_append, List.mem_cons, List.mem_singleton,
    List.not_mem_nil, or_false] at hev
  rcases hev with (rfl | rfl | hev) | hev
  · exact Or.inr (Or.inl ⟨_, rfl, boldPrint_ne_keyPrompt _⟩)
  · exact Or.inl rfl
  · exact Or.inr (Or.inl (sessionResult_events _ _ ev hev))
  · exact Or.inr (Or.inr (finish_events _ ev hev))

theorem dispatch_windows_events {R O : Type} (w : World R O) (fuel : Nat)
    (selected : InstanceInfo) (region : String) (h : selected.Platform = "windows") :
    (∃ rest, (dispatch w fuel selected region).1
      = boldPrint ("✅ Selected instance: " ++ selected.Name ++ " (" ++ selected.ID ++ ")")
          ++ [Event.stdout keyPrompt, Event.readStdin, Event.getPasswordData selected.ID]
          ++ rest)
    ∧ Event.exec (shellArgv selected.ID region) ∉ (dispatch w fuel selected region).1 := by
  obtain ⟨g, hg, hgr⟩ := getWindowsPassword_events w selected.ID w.stdinLine
  cases hr : (getWindowsPassword w selected.ID w.stdinLine).2 with
  | error e =>
    rw [dispatch_windows_error w fuel selected region h e hr, hg]
    refine ⟨⟨g ++ [Event.logFatal ("❌ Failed to get Windows password: " ++ e)], by simp⟩, ?_⟩
    simp only [boldPrint, List.mem_append, List.mem_cons, List.mem_singleton,
      List.not_mem_nil, or_false, not_or]
    refine ⟨⟨⟨by simp, by simp, by simp⟩, by simp, ?_⟩, by simp⟩
    intro hm
    have := hgr _ hm
    simp at this
  | ok password =>
    obtain ⟨tail, ht, htl⟩ := dispatch_windows_ok w fuel selected region h password hr
    rw [ht, hg]
    refine ⟨⟨_, by simp only [List.append_assoc, List.cons_append, List.nil_append]; rfl⟩, ?_⟩
    simp only [boldPrint, yellowBoldPrint, List.mem_append, List.mem_cons, List.mem_singleton,
      List.not_mem_nil, or_false, not_or]
    refine ⟨⟨⟨⟨⟨⟨by simp, by simp, by simp⟩, by simp, ?_⟩, ?_⟩, by simp⟩, ?_⟩, ?_⟩
    · intro hm
      have := hgr _ hm
      simp at this
    · intro hm
      have := copyToClipboard_events w password _ hm
      simp at this
    · intro hm
      exact (startPortForward_events w fuel selected.ID region).2 _ hm rfl
    · intro hm
      obtain ⟨msg, hmsg⟩ := htl _ hm
      simp at hmsg

/-- The block after `cmd.Run()` does recognise the marker in the `Stderr` field of an
`*exec.ExitError`, when that field holds it. -/
theorem sessionResult_marker (instanceID : String) (state : String) (stderr : String)
    (h : stringsContains stderr "TargetNotConnected" = true) :
    (sessionResult instanceID (some (RunError.exitError state stderr))).2
      = some ("SSM agent not connected on instance " ++ instanceID) := by
  simp only [sessionResult, h, if_true]

/-- On the agent-unreachable error `main` exits with status 1 without a fatal log. -/
theorem finish_agent_unreachable (instanceID : String) :
    finish (some ("SSM agent not connected on instance " ++ instanceID)) = ([], 1) := by
  have hc : stringsContains ("SSM agent not connected on instance " ++ instanceID)
      "SSM agent not connected" = true := by
    rw [stringsContains_iff]
    refine ⟨[], " on instance ".data ++ instanceID.data, ?_⟩
    rw [String.data_append, List.nil_append, ← List.append_assoc]
    rfl
  simp only [finish, hc, Bool.not_true, Bool.false_eq_true, if_false]

/-- The `Stderr` field of an error of `cmd.Run()` is empty, whatever the child wrote. -/
theorem cmdRun_stderr_empty (r : ProcResult) (state : String) (stderr : String)
    (h : cmdRun r = some (RunError.exitError state stderr)) : stderr = "" := by
  unfold cmdRun at h
  split at h
  · simp at h
  · simp only [Option.some.injEq, RunError.exitError.injEq] at h
    exact h.2.symm
  · simp only [Option.some.injEq, RunError.exitError.injEq] at h
    exact h.2.symm
  · simp at h

/-- Whatever a failing child wrote on its standard error, `startShellSession` returns the
raw exit error. -/
theorem startShellSession_exit {R O : Type} (w : World R O) (instanceID region : String)
    (code : Nat) (text : String)
    (h : w.child (shellArgv instanceID region) = ProcResult.exited (code + 1) text) :
    startShellSession w instanceID region
      = ([Event.exec (shellArgv instanceID region)],
          some ("exit status " ++ toString (code + 1))) := by
  have hc : stringsContains "" "TargetNotConnected" = false := by decide
  simp only [startShellSession, h, cmdRun, sessionResult, hc, Bool.false_eq_true, if_false,
    RunError.Error]

/-! ## Claims about the session dispatch -/

/-- C6: the dispatch step of `main` fetches the credential (`GetPasswordData`) exactly when
the platform of the target is "windows". For any other platform the whole trace is that of
`startShellSession` (after the banner, and followed by the final fatal log if any): it
launches the shell session and holds no prompt, no read of the key path, no credential
fetch, no clipboard write, no port probe and no other child process. For "windows" the
trace opens with the key prompt, the read of the key path and the credential fetch, and
never launches the shell session; when the credential fetch fails the process ends there
with a fatal log, and when it succeeds `startPortForward` runs next, starting with its
`isPortInUse` probe of port 9000. -/
theorem dispatch_branches_on_windows {R O : Type} (w : World R O) (fuel : Nat)
    (selected : InstanceInfo) (region : String) :
    (selected.Platform = "windows"
      ↔ Event.getPasswordData selected.ID ∈ (dispatch w fuel selected region).1)
    ∧ (selected.Platform ≠ "windows" →
        dispatch w fuel selected region
          = (boldPrint ("✅ Selected instance: " ++ selected.Name ++ " (" ++ selected.ID ++ ")")
              ++ (startShellSession w selected.ID region).1
              ++ (finish (startShellSession w selected.ID region).2).1,
            some (finish (startShellSession w selected.ID region).2).2)
        ∧ Event.exec (shellArgv selected.ID region) ∈ (dispatch w fuel selected region).1
        ∧ ∀ ev ∈ (dispatch w fuel selected region).1,
            ev ≠ Event.readStdin ∧ ev ≠ Event.stdout keyPrompt
            ∧ (∀ id, ev ≠ Event.getPasswordData id) ∧ (∀ path, ev ≠ Event.readFile path)
            ∧ (∀ s, ev ≠ Event.clipboardWrite s) ∧ (∀ port, ev ≠ Event.dialPort port)
            ∧ (∀ argv, ev = Event.exec argv → argv = shellArgv selected.ID region))
    ∧ (selected.Platform = "windows" →
        (∃ rest, (dispatch w fuel selected region).1
          = boldPrint ("✅ Selected instance: " ++ selected.Name ++ " (" ++ selected.ID ++ ")")
              ++ [Event.stdout keyPrompt, Event.readStdin, Event.getPasswordData selected.ID]
              ++ rest)
        ∧ Event.exec (shellArgv selected.ID region) ∉ (dispatch w fuel selected region).1
        ∧ (∀ e, (getWindowsPassword w selected.ID w.stdinLine).2 = Except.error e →
            dispatch w fuel selected region
              = (boldPrint
                    ("✅ Selected instance: " ++ selected.Name ++ " (" ++ selected.ID ++ ")")
                  ++ [Event.stdout keyPrompt, Event.readStdin]
                  ++ (getWindowsPassword w selected.ID w.stdinLine).1
                  ++ [Event.logFatal ("❌ Failed to get Windows password: " ++ e)],
                some 1))
        ∧ (∀ password, (getWindowsPassword w selected.ID w.stdinLine).2 = Except.ok password →
            (∃ tail, (dispatch w fuel selected region).1
              = boldPrint
                    ("✅ Selected instance: " ++ selected.Name ++ " (" ++ selected.ID ++ ")")
                  ++ [Event.stdout keyPrompt, Event.readStdin]
                  ++ (getWindowsPassword w selected.ID w.stdinLine).1
                  ++ (copyToClipboard w password).1
                  ++ yellowBoldPrint
                      ("🔐 Windows Administrator password (copied to clipboard): " ++ password)
                  ++ (startPortForward w fuel selected.ID region).1
                  ++ tail)
            ∧ (0 < fuel → Event.dialPort "9000" ∈ (dispatch w fuel selected region).1))) := by
  have hshell : selected.Platform ≠ "windows" →
      ∀ ev ∈ (dispatch w fuel selected region).1,
        ev ≠ Event.readStdin ∧ ev ≠ Event.stdout keyPrompt
        ∧ (∀ id, ev ≠ Event.getPasswordData id) ∧ (∀ path, ev ≠ Event.readFile path)
        ∧ (∀ s, ev ≠ Event.clipboardWrite s) ∧ (∀ port, ev ≠ Event.dialPort port)
        ∧ (∀ argv, ev = Event.exec argv → argv = shellArgv selected.ID region) := by
    intro h ev hev
    rcases dispatch_shell_events w fuel selected region h ev hev with
      rfl | ⟨s, rfl, hs⟩ | ⟨msg, rfl⟩
    · simp
    · simp [hs]
    · simp
  refine ⟨⟨fun h => ?_, fun hm => ?_⟩, fun h => ⟨dispatch_shell w fuel selected region h, ?_,
    hshell h⟩, fun h => ⟨(dispatch_windows_events w fuel selected region h).1,
    (dispatch_windows_events w fuel selected region h).2,
    fun e he => dispatch_windows_error w fuel selected region h e he, fun password hg => ?_⟩⟩
  · obtain ⟨rest, hr⟩ := (dispatch_windows_events w fuel selected region h).1
    rw [hr]
    simp
  · by_contra hne
    exact (hshell hne _ hm).2.2.1 selected.ID rfl
  · rw [dispatch_shell w fuel selected region h]
    simp [startShellSession]
  · obtain ⟨tail, ht, _⟩ := dispatch_windows_ok w fuel selected region h password hg
    refine ⟨⟨tail, ht⟩, fun hf => ?_⟩
    obtain ⟨r1, hr1⟩ := (startPortForward_events w fuel selected.ID region).1
    obtain ⟨r2, hr2⟩ := portLoop_head w "9000" fuel 0 hf
    rw [ht, hr1, hr2]
    simp

/-- Witness of C6 in the sample world: a Linux target gets exactly the shell session, and a
Windows target gets the port probe and never the shell session. -/
theorem dispatch_branches_on_windows_witness :
    (∀ ev ∈ (dispatch sampleWorld 3 sampleLinux "ap-northeast-1").1,
        ∀ argv, ev = Event.exec argv → argv = shellArgv sampleLinux.ID "ap-northeast-1")
    ∧ Event.exec (shellArgv sampleWindows.ID "ap-northeast-1")
        ∉ (dispatch sampleWorld 3 sampleWindows "ap-northeast-1").1
    ∧ Event.dialPort "9000" ∈ (dispatch sampleWorld 3 sampleWindows "ap-northeast-1").1 :=
  ⟨fun ev hev =>
      (((dispatch_branches_on_windows sampleWorld 3 sampleLinux "ap-northeast-1").2.1
        (by decide)).2.2 ev hev).2.2.2.2.2.2,
    ((dispatch_branches_on_windows sampleWorld 3 sampleWindows "ap-northeast-1").2.2 rfl).2.1,
    (((dispatch_branches_on_windows sampleWorld 3 sampleWindows "ap-northeast-1").2.2
      rfl).2.2.2 "hunter2" rfl).2 (by decide)⟩

/-- C7, evaluated where it fails: the session launcher ends with status 255 after writing
a "TargetNotConnected" message on its standard error. `startShellSession` and
`startPortForward` return the raw error "exit status 255", not the agent-unreachable
error, and `main` ends with the generic "SSM session failed" fatal log. -/
theorem targetNotConnected_reported_as_generic_failure :
    stringsContains sampleStderr "TargetNotConnected" = true
    ∧ sampleWorld.child (shellArgv "i-0a1" "ap-northeast-1")
        = ProcResult.exited 255 sampleStderr
    ∧ startShellSession sampleWorld "i-0a1" "ap-northeast-1"
        = ([Event.exec (shellArgv "i-0a1" "ap-northeast-1")], some "exit status 255")
    ∧ (startPortForward sampleWorld 1 "i-0b2" "ap-northeast-1").2
        = some (some "exit status 255")
    ∧ dispatch sampleWorld 1 sampleLinux "ap-northeast-1"
        = (boldPrint "✅ Selected instance: web-1 (i-0a1)"
            ++ [Event.exec (shellArgv "i-0a1" "ap-northeast-1"),
                Event.logFatal "❌ SSM session failed: exit status 255"],
          some 1) := by
  refine ⟨by decide, rfl, by decide, by decide, by decide⟩

end Ec2Connector
